import Mathlib

/-!
Verification development for the `wgpu_launchpad` repository.

The repository is a minimal scene-rendering harness: `src/lib.rs` exposes a
generic `launch<S: Scene>` entry point and `src/main.rs` is a fixed,
non-generic variant of the same loop.  Both initialize a GPU device and a
swapchain, then run a winit event loop in which window events are dispatched
first and a drain phase (`MainEventsCleared`) rebuilds the swapchain when a
resize was observed, acquires a frame, records and submits the frame's
commands.

The embedding below models the loop bodies as step functions over an explicit
`LoopState`, emitting a trace of `Action`s that records every externally
observable call (swapchain creation, scene construction, scene event/draw
dispatch, frame acquisition, queue submission, panics).  The winit runtime
itself is not part of the repository's sources; its delivery discipline
(events of one iteration, then `MainEventsCleared`, loop exit once
`ControlFlow::Exit` is set) is modelled from the specification.
-/

namespace WgpuLaunchpad

/-- Physical window size in pixels (winit `PhysicalSize<u32>`); the sources
only read `.width` and `.height`. -/
structure Size where
  width : Nat
  height : Nat
deriving Repr, DecidableEq

/-- wgpu `TextureFormat`, restricted to the constructor the sources name,
plus an opaque remainder of the enum. -/
inductive TextureFormat where
  | Bgra8UnormSrgb
  | otherFormat (n : Nat)
deriving Repr, DecidableEq

/-- wgpu `TextureUsage`, restricted to the flag the sources name, plus an
opaque remainder. -/
inductive TextureUsage where
  | OUTPUT_ATTACHMENT
  | otherUsage (n : Nat)
deriving Repr, DecidableEq

/-- wgpu `PresentMode`. -/
inductive PresentMode where
  | Immediate
  | Mailbox
  | Fifo
deriving Repr, DecidableEq

/-- wgpu `SwapChainDescriptor` as used at lib.rs lines 62-68 and 98-104 and
main.rs lines 47-53 and 81-87. -/
structure SwapChainDescriptor where
  usage : TextureUsage
  format : TextureFormat
  width : Nat
  height : Nat
  present_mode : PresentMode
deriving Repr, DecidableEq

/-- `const SWAPCHAIN_FORMAT: wgpu::TextureFormat = wgpu::TextureFormat::Bgra8UnormSrgb;`
(lib.rs line 8; main.rs line 9 is identical). -/
def SWAPCHAIN_FORMAT : TextureFormat := TextureFormat.Bgra8UnormSrgb

/-- winit `WindowEvent`, restricted to the two cases both loop bodies match
on; `otherWindowEvent` stands for every other variant (the `_ => {}` arm).
The payload of `Resized` is carried so we can state that the code ignores it
(`WindowEvent::Resized(_)`). -/
inductive WindowEvent where
  | Resized (s : Size)
  | CloseRequested
  | otherWindowEvent (n : Nat)
deriving Repr, DecidableEq

/-- winit `Event`, restricted to the arms the loop bodies match on. -/
inductive Event where
  | windowEvent (e : WindowEvent)
  | mainEventsCleared
  | otherEvent (n : Nat)
deriving Repr, DecidableEq

/-- winit `ControlFlow`; the sources only ever write `ControlFlow::Exit`. -/
inductive ControlFlow where
  | Poll
  | Exit
deriving Repr, DecidableEq

/-- Externally observable calls made by the harness, in program order.
`createSwapChain` tags the initial `device.create_swap_chain` call
(lib.rs line 60 / main.rs line 45); `rebuildSwapChain` tags the same API
called from the `MainEventsCleared` arm (lib.rs line 96 / main.rs line 79).
`sceneClear` and `sceneDrawPass` are the per-frame calls of the non-generic
main.rs variant (`scene.clear`, `scene.draw(&mut render_pass)`). -/
inductive Action where
  | createWindow
  | requestAdapter
  | requestDevice
  | createSwapChain (d : SwapChainDescriptor)
  | sceneNew
  | sceneEvent (e : WindowEvent)
  | setResized
  | setExit
  | rebuildSwapChain (d : SwapChainDescriptor)
  | getCurrentFrame
  | createCommandEncoder
  | sceneDraw
  | sceneClear
  | sceneDrawPass
  | queueSubmit
  | panicked (msg : String)
deriving Repr, DecidableEq

/-- Discriminator for `Action.rebuildSwapChain`. -/
def Action.isRebuild : Action → Bool
  | Action.rebuildSwapChain _ => true
  | _ => false

/-- Discriminator for `Action.createSwapChain`. -/
def Action.isCreateSwapChain : Action → Bool
  | Action.createSwapChain _ => true
  | _ => false

/-- Discriminator for `Action.sceneDraw`. -/
def Action.isSceneDraw : Action → Bool
  | Action.sceneDraw => true
  | _ => false

/-- Discriminator for `Action.sceneNew`. -/
def Action.isSceneNew : Action → Bool
  | Action.sceneNew => true
  | _ => false

/-- Discriminator for `Action.sceneEvent`. -/
def Action.isSceneEvent : Action → Bool
  | Action.sceneEvent _ => true
  | _ => false

/-- Discriminator for `Action.getCurrentFrame`. -/
def Action.isGetFrame : Action → Bool
  | Action.getCurrentFrame => true
  | _ => false

/-- Discriminator for `Action.sceneDrawPass`. -/
def Action.isSceneDrawPass : Action → Bool
  | Action.sceneDrawPass => true
  | _ => false

/-- Discriminator for `Action.createWindow`. -/
def Action.isCreateWindow : Action → Bool
  | Action.createWindow => true
  | _ => false

/-- Discriminator for `Action.requestAdapter`. -/
def Action.isRequestAdapter : Action → Bool
  | Action.requestAdapter => true
  | _ => false

/-- Discriminator for `Action.requestDevice`. -/
def Action.isRequestDevice : Action → Bool
  | Action.requestDevice => true
  | _ => false

/-- Discriminator for every call into the Scene (construction, event
dispatch, or any of the draw-phase entry points). -/
def Action.isSceneCall : Action → Bool
  | Action.sceneNew => true
  | Action.sceneEvent _ => true
  | Action.sceneDraw => true
  | Action.sceneClear => true
  | Action.sceneDrawPass => true
  | _ => false

/-- Mutable state of the event loop closure: the `resized` flag and
`swap_chain` variable captured by the closure (lib.rs lines 57-71 /
main.rs lines 42-56), the winit `control_flow` parameter, and whether an
`expect` in the loop body has panicked (aborting the process). -/
structure LoopState where
  resized : Bool
  swap_chain : SwapChainDescriptor
  control_flow : ControlFlow
  panicAborted : Bool
deriving Repr, DecidableEq

/-- The `wgpu::SwapChainDescriptor` literal both sources build, at startup
and on rebuild, from a freshly sampled `window.inner_size()` (lib.rs
lines 62-68 and 98-104; main.rs lines 47-53 and 81-87). -/
def swapChainDescriptorAt (size : Size) : SwapChainDescriptor :=
  { usage := TextureUsage.OUTPUT_ATTACHMENT
    format := SWAPCHAIN_FORMAT
    width := size.width
    height := size.height
    present_mode := PresentMode.Mailbox }

/-- One invocation of the event-loop closure of `launch` (lib.rs lines
77-124).  `windowSize` is the value `window.inner_size()` returns if sampled
during this invocation, and `frameOk` tells whether
`swap_chain.get_current_frame()` succeeds.  Returns the updated captured
state and the trace of observable calls the invocation makes. -/
def launchStep (windowSize : Size) (frameOk : Bool) (s : LoopState) :
    Event → LoopState × List Action
  | Event.windowEvent e =>
    match e with
    | WindowEvent.Resized sz =>
      ({ s with resized := true },
        [Action.sceneEvent (WindowEvent.Resized sz), Action.setResized])
    | WindowEvent.CloseRequested =>
      ({ s with control_flow := ControlFlow.Exit },
        [Action.sceneEvent WindowEvent.CloseRequested, Action.setExit])
    | WindowEvent.otherWindowEvent n =>
      (s, [Action.sceneEvent (WindowEvent.otherWindowEvent n)])
  | Event.mainEventsCleared =>
    let d := swapChainDescriptorAt windowSize
    let s1 := if s.resized then { s with swap_chain := d, resized := false } else s
    let t1 := if s.resized then [Action.rebuildSwapChain d] else []
    if frameOk then
      (s1, t1 ++ [Action.getCurrentFrame, Action.createCommandEncoder,
        Action.sceneDraw, Action.queueSubmit])
    else
      ({ s1 with panicAborted := true },
        t1 ++ [Action.getCurrentFrame, Action.panicked "Next frame"])
  | Event.otherEvent _ => (s, [])

/-- One invocation of the event-loop closure of `main` (main.rs lines
62-111).  Identical to `launchStep` except that the window-event arm makes
no call into the Scene, and the drain phase clears via a render pass
(`scene.clear`) before `scene.draw(&mut render_pass)`. -/
def mainStep (windowSize : Size) (frameOk : Bool) (s : LoopState) :
    Event → LoopState × List Action
  | Event.windowEvent e =>
    match e with
    | WindowEvent.Resized _ => ({ s with resized := true }, [Action.setResized])
    | WindowEvent.CloseRequested =>
      ({ s with control_flow := ControlFlow.Exit }, [Action.setExit])
    | WindowEvent.otherWindowEvent _ => (s, [])
  | Event.mainEventsCleared =>
    let d := swapChainDescriptorAt windowSize
    let s1 := if s.resized then { s with swap_chain := d, resized := false } else s
    let t1 := if s.resized then [Action.rebuildSwapChain d] else []
    if frameOk then
      (s1, t1 ++ [Action.getCurrentFrame, Action.createCommandEncoder,
        Action.sceneClear, Action.sceneDrawPass, Action.queueSubmit])
    else
      ({ s1 with panicAborted := true },
        t1 ++ [Action.getCurrentFrame, Action.panicked "Next frame"])
  | Event.otherEvent _ => (s, [])

/-- Environment of one loop iteration: the window events the platform
delivers, the physical window size `window.inner_size()` reports during the
drain phase of this iteration, and whether frame acquisition succeeds. -/
structure IterationInput where
  events : List WindowEvent
  drainSize : Size
  frameOk : Bool
deriving Repr, DecidableEq

/-- Sequential composition of one step after an accumulated (state, trace)
pair. -/
def thenStep (step : LoopState → Event → LoopState × List Action)
    (ev : Event) (acc : LoopState × List Action) : LoopState × List Action :=
  let r := step acc.1 ev
  (r.1, acc.2 ++ r.2)

/-- Modelled from the spec: one winit loop iteration delivers all pending
window events and then fires `MainEventsCleared` (spec section 4.4: events
are dispatched, then the idle/drain phase fires once all pending events for
that iteration have been delivered).  Parameterised by the closure body so
it serves both `launch` and `main`. -/
def runIterationWith (step : Size → Bool → LoopState → Event → LoopState × List Action)
    (inp : IterationInput) (s : LoopState) : LoopState × List Action :=
  let acc := inp.events.foldl
    (fun acc e => thenStep (step inp.drainSize inp.frameOk) (Event.windowEvent e) acc)
    (s, [])
  thenStep (step inp.drainSize inp.frameOk) Event.mainEventsCleared acc

/-- One iteration of the `launch` loop. -/
def runIteration (inp : IterationInput) (s : LoopState) : LoopState × List Action :=
  runIterationWith launchStep inp s

/-- One iteration of the `main` loop. -/
def mainRunIteration (inp : IterationInput) (s : LoopState) : LoopState × List Action :=
  runIterationWith mainStep inp s

/-- Modelled from the spec: the winit run loop processes iterations until
the handler has set `ControlFlow::Exit`, and a panic in the closure aborts
the process (spec section 4.4: termination when the close-request event is
observed; spec section 7: frame-acquisition failure is fatal). -/
def runLoopWith (step : Size → Bool → LoopState → Event → LoopState × List Action)
    (s : LoopState) : List IterationInput → LoopState × List Action
  | [] => (s, [])
  | inp :: rest =>
    let r := runIterationWith step inp s
    if r.1.panicAborted = true ∨ r.1.control_flow = ControlFlow.Exit then r
    else
      let r2 := runLoopWith step r.1 rest
      (r2.1, r.2 ++ r2.2)

/-- The `launch` loop run over a list of iteration environments. -/
def runLoop (s : LoopState) (its : List IterationInput) : LoopState × List Action :=
  runLoopWith launchStep s its

/-- The `main` loop run over a list of iteration environments. -/
def mainRunLoop (s : LoopState) (its : List IterationInput) : LoopState × List Action :=
  runLoopWith mainStep s its

/-- Environment of the startup phase: whether `Window::new` (lib.rs line 29),
`request_adapter` (line 36) and `request_device` (line 44) succeed, and the
window's initial inner size (line 58). -/
structure StartupEnv where
  windowOk : Bool
  adapterOk : Bool
  deviceOk : Bool
  initialSize : Size
deriving Repr, DecidableEq

/-- Outcome of the startup phase: either the captured loop state at the
moment `event_loop.run` is entered, or a process abort from the `unwrap`
or `expect` calls. -/
inductive InitOutcome where
  | ok (s : LoopState)
  | aborted (msg : String)
deriving Repr, DecidableEq

/-- The loop state captured when `event_loop.run` begins: `resized = false`
(lib.rs line 71 / main.rs line 56), the initial swapchain built from the
window's inner size, `ControlFlow` not yet Exit. -/
def initLoopState (size : Size) : LoopState :=
  { resized := false
    swap_chain := swapChainDescriptorAt size
    control_flow := ControlFlow.Poll
    panicAborted := false }

/-- Startup phase of `launch` (lib.rs lines 28-70): create the window
(`.unwrap()`), request an adapter (`.expect("Request adapter")`), request a
device (`.expect("Request device")`), then create the initial swap chain
from `window.inner_size()`.  Each failure aborts the process at that point;
no call is retried.  main.rs lines 13-55 are identical. -/
def launchInit (env : StartupEnv) : InitOutcome × List Action :=
  if env.windowOk = false then
    (InitOutcome.aborted "called unwrap on an Err value",
      [Action.createWindow, Action.panicked "called unwrap on an Err value"])
  else if env.adapterOk = false then
    (InitOutcome.aborted "Request adapter",
      [Action.createWindow, Action.requestAdapter, Action.panicked "Request adapter"])
  else if env.deviceOk = false then
    (InitOutcome.aborted "Request device",
      [Action.createWindow, Action.requestAdapter, Action.requestDevice,
        Action.panicked "Request device"])
  else
    (InitOutcome.ok (initLoopState env.initialSize),
      [Action.createWindow, Action.requestAdapter, Action.requestDevice,
        Action.createSwapChain (swapChainDescriptorAt env.initialSize)])

/-- Full trace of `launch` (lib.rs lines 26-125): startup, then
`S::new(&mut device, args)` (line 74), then the event loop. -/
def launch (env : StartupEnv) (its : List IterationInput) : List Action :=
  match launchInit env with
  | (InitOutcome.aborted _, t) => t
  | (InitOutcome.ok s0, t) =>
    t ++ [Action.sceneNew] ++ (runLoop s0 its).2

/-- Full trace of `main` (main.rs lines 11-112): startup, then
`Scene::new(&mut device)` (line 59), then the event loop. -/
def mainRun (env : StartupEnv) (its : List IterationInput) : List Action :=
  match launchInit env with
  | (InitOutcome.aborted _, t) => t
  | (InitOutcome.ok s0, t) =>
    t ++ [Action.sceneNew] ++ (mainRunLoop s0 its).2

/-- Discriminator for `WindowEvent.Resized`. -/
def WindowEvent.isResized : WindowEvent → Bool
  | WindowEvent.Resized _ => true
  | _ => false

/-- Discriminator for `WindowEvent.CloseRequested`. -/
def WindowEvent.isCloseRequested : WindowEvent → Bool
  | WindowEvent.CloseRequested => true
  | _ => false

/-- The driver's own handling of one window event (the inner `match` of the
window-event arm, lib.rs lines 81-89 / main.rs lines 65-73): a resize sets
the dirty flag, a close request sets `ControlFlow::Exit`, everything else is
ignored. -/
def driverEventActions : WindowEvent → List Action
  | WindowEvent.Resized _ => [Action.setResized]
  | WindowEvent.CloseRequested => [Action.setExit]
  | WindowEvent.otherWindowEvent _ => []

/-- Trace of `launch`'s window-event arm: `scene.event(&event)` first
(lib.rs line 80), then the driver's own handling. -/
def launchEventActions (e : WindowEvent) : List Action :=
  Action.sceneEvent e :: driverEventActions e

/-- Trace of `launch`'s frame phase (lib.rs lines 110-120): acquire the
frame (panicking with "Next frame" on failure), create an encoder, draw,
submit. -/
def launchFrameActions (frameOk : Bool) : List Action :=
  if frameOk then
    [Action.getCurrentFrame, Action.createCommandEncoder,
      Action.sceneDraw, Action.queueSubmit]
  else
    [Action.getCurrentFrame, Action.panicked "Next frame"]

/-- Trace of `main`'s frame phase (main.rs lines 93-107): acquire the frame,
create an encoder, clear via a render pass, draw into the pass, submit. -/
def mainFrameActions (frameOk : Bool) : List Action :=
  if frameOk then
    [Action.getCurrentFrame, Action.createCommandEncoder,
      Action.sceneClear, Action.sceneDrawPass, Action.queueSubmit]
  else
    [Action.getCurrentFrame, Action.panicked "Next frame"]

/-- Trace of the conditional rebuild at the start of the drain phase
(lib.rs lines 93-108 / main.rs lines 76-91). -/
def rebuildActions (ws : Size) (resized : Bool) : List Action :=
  if resized then [Action.rebuildSwapChain (swapChainDescriptorAt ws)] else []

/-- State update both loop bodies perform for one window event: resize sets
the dirty flag, close request sets `ControlFlow::Exit`, anything else leaves
the state untouched. -/
def windowEventState : WindowEvent → LoopState → LoopState
  | WindowEvent.Resized _, s => { s with resized := true }
  | WindowEvent.CloseRequested, s => { s with control_flow := ControlFlow.Exit }
  | WindowEvent.otherWindowEvent _, s => s

/-- Loop state after all window events of an iteration have been dispatched:
the dirty flag is set iff it was set or some event was a resize, the control
flow is `Exit` iff it was or some event was a close request, and nothing
else changes. -/
def eventPhaseState (evs : List WindowEvent) (s : LoopState) : LoopState :=
  { s with
    resized := s.resized || evs.any WindowEvent.isResized
    control_flow :=
      if evs.any WindowEvent.isCloseRequested then ControlFlow.Exit
      else s.control_flow }

/-- Loop state after the drain phase: if the dirty flag was set the
swapchain is replaced by one built from the freshly sampled window size and
the flag cleared; a failed frame acquisition marks the process as aborted. -/
def drainState (ws : Size) (fo : Bool) (s : LoopState) : LoopState :=
  let s1 :=
    if s.resized then
      { s with swap_chain := swapChainDescriptorAt ws, resized := false }
    else s
  if fo then s1 else { s1 with panicAborted := true }

/-- Every swapchain this action creates (initially or on rebuild) uses the
fixed format, usage flag and present mode. -/
def DescOk : Action → Prop
  | Action.createSwapChain d =>
    d.usage = TextureUsage.OUTPUT_ATTACHMENT ∧
      d.format = TextureFormat.Bgra8UnormSrgb ∧ d.present_mode = PresentMode.Mailbox
  | Action.rebuildSwapChain d =>
    d.usage = TextureUsage.OUTPUT_ATTACHMENT ∧
      d.format = TextureFormat.Bgra8UnormSrgb ∧ d.present_mode = PresentMode.Mailbox
  | _ => True

/-- Invariant of every action the `launch` event loop emits: the loop never
constructs the scene again, never runs the initial swapchain creation, and
every swapchain it does create uses the fixed configuration. -/
def LaunchLoopEmits (a : Action) : Prop :=
  a.isSceneNew = false ∧ a.isCreateSwapChain = false ∧ DescOk a

/-- Invariant of every action the `main` event loop emits: additionally, the
scene is never handed a window event. -/
def MainLoopEmits (a : Action) : Prop :=
  a.isSceneNew = false ∧ a.isCreateSwapChain = false ∧
    a.isSceneEvent = false ∧ DescOk a

lemma launch_eventsFold (ws : Size) (fo : Bool) (evs : List WindowEvent)
    (s : LoopState) (t0 : List Action) :
    evs.foldl (fun acc e => thenStep (launchStep ws fo) (Event.windowEvent e) acc) (s, t0) =
      (eventPhaseState evs s, t0 ++ evs.flatMap launchEventActions) := by
  induction evs generalizing s t0 with
  | nil => simp [eventPhaseState]
  | cons e rest ih =>
    rw [List.foldl_cons]
    have h1 : thenStep (launchStep ws fo) (Event.windowEvent e) (s, t0) =
        (windowEventState e s, t0 ++ launchEventActions e) := by
      cases e <;> rfl
    rw [h1, ih]
    cases e <;>
      simp [windowEventState, eventPhaseState, launchEventActions,
        driverEventActions, WindowEvent.isResized, WindowEvent.isCloseRequested]

lemma main_eventsFold (ws : Size) (fo : Bool) (evs : List WindowEvent)
    (s : LoopState) (t0 : List Action) :
    evs.foldl (fun acc e => thenStep (mainStep ws fo) (Event.windowEvent e) acc) (s, t0) =
      (eventPhaseState evs s, t0 ++ evs.flatMap driverEventActions) := by
  induction evs generalizing s t0 with
  | nil => simp [eventPhaseState]
  | cons e rest ih =>
    rw [List.foldl_cons]
    have h1 : thenStep (mainStep ws fo) (Event.windowEvent e) (s, t0) =
        (windowEventState e s, t0 ++ driverEventActions e) := by
      cases e <;> rfl
    rw [h1, ih]
    cases e <;>
      simp [windowEventState, eventPhaseState,
        driverEventActions, WindowEvent.isResized, WindowEvent.isCloseRequested]

lemma launchStep_drain (ws : Size) (fo : Bool) (s : LoopState) :
    launchStep ws fo s Event.mainEventsCleared =
      (drainState ws fo s, rebuildActions ws s.resized ++ launchFrameActions fo) := by
  cases hr : s.resized <;> cases fo <;>
    simp [launchStep, drainState, rebuildActions, launchFrameActions, hr]

lemma mainStep_drain (ws : Size) (fo : Bool) (s : LoopState) :
    mainStep ws fo s Event.mainEventsCleared =
      (drainState ws fo s, rebuildActions ws s.resized ++ mainFrameActions fo) := by
  cases hr : s.resized <;> cases fo <;>
    simp [mainStep, drainState, rebuildActions, mainFrameActions, hr]

lemma runIteration_spec (inp : IterationInput) (s : LoopState) :
    runIteration inp s =
      (drainState inp.drainSize inp.frameOk (eventPhaseState inp.events s),
       inp.events.flatMap launchEventActions ++
         (rebuildActions inp.drainSize (eventPhaseState inp.events s).resized ++
           launchFrameActions inp.frameOk)) := by
  unfold runIteration runIterationWith
  rw [launch_eventsFold]
  simp [thenStep, launchStep_drain]

lemma mainRunIteration_spec (inp : IterationInput) (s : LoopState) :
    mainRunIteration inp s =
      (drainState inp.drainSize inp.frameOk (eventPhaseState inp.events s),
       inp.events.flatMap driverEventActions ++
         (rebuildActions inp.drainSize (eventPhaseState inp.events s).resized ++
           mainFrameActions inp.frameOk)) := by
  unfold mainRunIteration runIterationWith
  rw [main_eventsFold]
  simp [thenStep, mainStep_drain]

lemma drainState_control_flow (ws : Size) (fo : Bool) (s : LoopState) :
    (drainState ws fo s).control_flow = s.control_flow := by
  unfold drainState
  split <;> split <;> rfl

lemma drainState_panicAborted (ws : Size) (fo : Bool) (s : LoopState) :
    (drainState ws fo s).panicAborted = (s.panicAborted || !fo) := by
  unfold drainState
  cases fo <;> split <;> simp

lemma drainState_swap_chain (ws : Size) (fo : Bool) (s : LoopState) :
    (drainState ws fo s).swap_chain =
      (if s.resized then swapChainDescriptorAt ws else s.swap_chain) := by
  unfold drainState
  cases fo <;> cases hr : s.resized <;> simp [hr]

lemma runIteration_control_flow (inp : IterationInput) (s : LoopState) :
    (runIteration inp s).1.control_flow =
      (if inp.events.any WindowEvent.isCloseRequested then ControlFlow.Exit
       else s.control_flow) := by
  rw [runIteration_spec]
  simp [drainState_control_flow, eventPhaseState]

lemma runIteration_panicAborted (inp : IterationInput) (s : LoopState) :
    (runIteration inp s).1.panicAborted = (s.panicAborted || !inp.frameOk) := by
  rw [runIteration_spec]
  simp [drainState_panicAborted, eventPhaseState]

lemma runIteration_swap_chain (inp : IterationInput) (s : LoopState) :
    (runIteration inp s).1.swap_chain =
      (if s.resized || inp.events.any WindowEvent.isResized then
        swapChainDescriptorAt inp.drainSize
      else s.swap_chain) := by
  rw [runIteration_spec]
  simp [drainState_swap_chain, eventPhaseState]

lemma MainLoopEmits.toLaunch {a : Action} (h : MainLoopEmits a) : LaunchLoopEmits a :=
  ⟨h.1, h.2.1, h.2.2.2⟩

lemma launchEventActions_emits (e : WindowEvent) :
    ∀ a ∈ launchEventActions e, LaunchLoopEmits a := by
  cases e <;>
    simp [launchEventActions, driverEventActions, LaunchLoopEmits, DescOk,
      Action.isSceneNew, Action.isCreateSwapChain]

lemma driverEventActions_emits (e : WindowEvent) :
    ∀ a ∈ driverEventActions e, MainLoopEmits a := by
  cases e <;>
    simp [driverEventActions, MainLoopEmits, DescOk,
      Action.isSceneNew, Action.isCreateSwapChain, Action.isSceneEvent]

lemma rebuildActions_emits (ws : Size) (r : Bool) :
    ∀ a ∈ rebuildActions ws r, MainLoopEmits a := by
  cases r <;>
    simp [rebuildActions, MainLoopEmits, DescOk, swapChainDescriptorAt,
      SWAPCHAIN_FORMAT, Action.isSceneNew, Action.isCreateSwapChain, Action.isSceneEvent]

lemma launchFrameActions_emits (fo : Bool) :
    ∀ a ∈ launchFrameActions fo, MainLoopEmits a := by
  cases fo <;>
    simp [launchFrameActions, MainLoopEmits, DescOk,
      Action.isSceneNew, Action.isCreateSwapChain, Action.isSceneEvent]

lemma mainFrameActions_emits (fo : Bool) :
    ∀ a ∈ mainFrameActions fo, MainLoopEmits a := by
  cases fo <;>
    simp [mainFrameActions, MainLoopEmits, DescOk,
      Action.isSceneNew, Action.isCreateSwapChain, Action.isSceneEvent]

lemma runIteration_emits (inp : IterationInput) (s : LoopState) :
    ∀ a ∈ (runIteration inp s).2, LaunchLoopEmits a := by
  intro a ha
  rw [runIteration_spec] at ha
  rcases List.mem_append.mp ha with h | h
  · rcases List.mem_flatMap.mp h with ⟨e, _, he⟩
    exact launchEventActions_emits e a he
  · rcases List.mem_append.mp h with h2 | h2
    · exact (rebuildActions_emits _ _ a h2).toLaunch
    · exact (launchFrameActions_emits _ a h2).toLaunch

lemma mainRunIteration_emits (inp : IterationInput) (s : LoopState) :
    ∀ a ∈ (mainRunIteration inp s).2, MainLoopEmits a := by
  intro a ha
  rw [mainRunIteration_spec] at ha
  rcases List.mem_append.mp ha with h | h
  · rcases List.mem_flatMap.mp h with ⟨e, _, he⟩
    exact driverEventActions_emits e a he
  · rcases List.mem_append.mp h with h2 | h2
    · exact rebuildActions_emits _ _ a h2
    · exact mainFrameActions_emits _ a h2

lemma runLoop_emits (its : List IterationInput) :
    ∀ (s : LoopState), ∀ a ∈ (runLoop s its).2, LaunchLoopEmits a := by
  induction its with
  | nil =>
    intro s a ha
    simp [runLoop, runLoopWith] at ha
  | cons inp rest ih =>
    intro s a ha
    simp only [runLoop, runLoopWith] at ha
    split at ha
    · exact runIteration_emits inp s a ha
    · rcases List.mem_append.mp ha with h | h
      · exact runIteration_emits inp s a h
      · exact ih _ a h

lemma mainRunLoop_emits (its : List IterationInput) :
    ∀ (s : LoopState), ∀ a ∈ (mainRunLoop s its).2, MainLoopEmits a := by
  induction its with
  | nil =>
    intro s a ha
    simp [mainRunLoop, runLoopWith] at ha
  | cons inp rest ih =>
    intro s a ha
    simp only [mainRunLoop, runLoopWith] at ha
    split at ha
    · exact mainRunIteration_emits inp s a ha
    · rcases List.mem_append.mp ha with h | h
      · exact mainRunIteration_emits inp s a h
      · exact ih _ a h

lemma launchEventActions_flags (e : WindowEvent) :
    ∀ a ∈ launchEventActions e,
      a.isSceneDraw = false ∧ a.isGetFrame = false ∧ a.isRebuild = false := by
  cases e <;>
    simp [launchEventActions, driverEventActions,
      Action.isSceneDraw, Action.isGetFrame, Action.isRebuild]

lemma eventsTrace_countP_zero (evs : List WindowEvent) :
    (evs.flatMap launchEventActions).countP Action.isSceneDraw = 0 ∧
      (evs.flatMap launchEventActions).countP Action.isGetFrame = 0 ∧
      (evs.flatMap launchEventActions).countP Action.isRebuild = 0 := by
  refine ⟨?_, ?_, ?_⟩ <;>
    · apply List.countP_eq_zero.mpr
      intro a ha
      rcases List.mem_flatMap.mp ha with ⟨e, _, he⟩
      have h := launchEventActions_flags e a he
      simp [h.1, h.2.1, h.2.2]

lemma rebuildActions_counts (ws : Size) (r : Bool) :
    (rebuildActions ws r).countP Action.isSceneDraw = 0 ∧
      (rebuildActions ws r).countP Action.isGetFrame = 0 ∧
      (rebuildActions ws r).countP Action.isRebuild = (if r then 1 else 0) := by
  cases r <;>
    simp [rebuildActions, List.countP_cons, List.countP_nil,
      Action.isSceneDraw, Action.isGetFrame, Action.isRebuild]

lemma launchFrameActions_counts (fo : Bool) :
    (launchFrameActions fo).countP Action.isSceneDraw = (if fo then 1 else 0) ∧
      (launchFrameActions fo).countP Action.isRebuild = 0 := by
  cases fo <;>
    simp [launchFrameActions, List.countP_cons, List.countP_nil,
      Action.isSceneDraw, Action.isRebuild]

lemma launch_eq (env : StartupEnv) (its : List IterationInput) :
    launch env its = (launchInit env).2 ++
      (if env.windowOk && env.adapterOk && env.deviceOk then
        Action.sceneNew :: (runLoop (initLoopState env.initialSize) its).2
      else []) := by
  obtain ⟨w, ad, dv, sz⟩ := env
  cases w <;> cases ad <;> cases dv <;> simp [launch, launchInit]

lemma mainRun_eq (env : StartupEnv) (its : List IterationInput) :
    mainRun env its = (launchInit env).2 ++
      (if env.windowOk && env.adapterOk && env.deviceOk then
        Action.sceneNew :: (mainRunLoop (initLoopState env.initialSize) its).2
      else []) := by
  obtain ⟨w, ad, dv, sz⟩ := env
  cases w <;> cases ad <;> cases dv <;> simp [mainRun, launchInit]

lemma launchInit_descOk (env : StartupEnv) :
    ∀ a ∈ (launchInit env).2, DescOk a := by
  intro a ha
  have h4 : ∀ x ∈ [Action.createWindow, Action.requestAdapter, Action.requestDevice,
      Action.createSwapChain (swapChainDescriptorAt env.initialSize),
      Action.panicked "called unwrap on an Err value",
      Action.panicked "Request adapter", Action.panicked "Request device"], DescOk x := by
    simp [DescOk, swapChainDescriptorAt, SWAPCHAIN_FORMAT]
  apply h4
  obtain ⟨w, ad, dv, sz⟩ := env
  cases w <;> cases ad <;> cases dv <;> simp [launchInit] at ha ⊢ <;> tauto

lemma launch_descOk (env : StartupEnv) (its : List IterationInput) :
    ∀ a ∈ launch env its, DescOk a := by
  intro a ha
  rw [launch_eq] at ha
  rcases List.mem_append.mp ha with h | h
  · exact launchInit_descOk env a h
  · split at h
    · rcases List.mem_cons.mp h with rfl | h2
      · simp [DescOk]
      · exact (runLoop_emits its _ a h2).2.2
    · simp at h

lemma mainRun_descOk (env : StartupEnv) (its : List IterationInput) :
    ∀ a ∈ mainRun env its, DescOk a := by
  intro a ha
  rw [mainRun_eq] at ha
  rcases List.mem_append.mp ha with h | h
  · exact launchInit_descOk env a h
  · split at h
    · rcases List.mem_cons.mp h with rfl | h2
      · simp [DescOk]
      · exact (mainRunLoop_emits its _ a h2).2.2.2
    · simp at h

lemma isCloseRequested_eq_true (e : WindowEvent) :
    e.isCloseRequested = true ↔ e = WindowEvent.CloseRequested := by
  cases e <;> simp [WindowEvent.isCloseRequested]

/-- C1: within one loop iteration, any number of resize events (whatever
sizes they carry) coalesces into exactly one swapchain rebuild, which
happens before the frame is acquired or drawn and uses the window size
sampled at the drain point (`inp.drainSize`), not the event payloads. -/
theorem resizeCoalescesToOneRebuild (s : LoopState) (inp : IterationInput)
    (hev : ∃ sz, WindowEvent.Resized sz ∈ inp.events) :
    ∃ pre post,
      (runIteration inp s).2 =
        pre ++ Action.rebuildSwapChain (swapChainDescriptorAt inp.drainSize) :: post ∧
      pre.countP Action.isRebuild = 0 ∧
      post.countP Action.isRebuild = 0 ∧
      pre.countP Action.isGetFrame = 0 ∧
      pre.countP Action.isSceneDraw = 0 := by
  obtain ⟨sz, hmem⟩ := hev
  have hany : inp.events.any WindowEvent.isResized = true :=
    List.any_eq_true.mpr ⟨_, hmem, rfl⟩
  have hres : (eventPhaseState inp.events s).resized = true := by
    simp [eventPhaseState, hany]
  refine ⟨inp.events.flatMap launchEventActions, launchFrameActions inp.frameOk,
    ?_, ?_, ?_, ?_, ?_⟩
  · rw [runIteration_spec, hres]
    simp [rebuildActions]
  · exact (eventsTrace_countP_zero inp.events).2.2
  · exact (launchFrameActions_counts inp.frameOk).2
  · exact (eventsTrace_countP_zero inp.events).2.1
  · exact (eventsTrace_countP_zero inp.events).1

theorem resizeCoalescesToOneRebuild_witness :
    ∃ pre post,
      (runIteration
          ⟨[WindowEvent.Resized ⟨5, 5⟩, WindowEvent.Resized ⟨7, 7⟩], ⟨1024, 768⟩, true⟩
          (initLoopState ⟨800, 600⟩)).2 =
        pre ++ Action.rebuildSwapChain (swapChainDescriptorAt ⟨1024, 768⟩) :: post ∧
      pre.countP Action.isRebuild = 0 ∧
      post.countP Action.isRebuild = 0 ∧
      pre.countP Action.isGetFrame = 0 ∧
      pre.countP Action.isSceneDraw = 0 :=
  resizeCoalescesToOneRebuild (initLoopState ⟨800, 600⟩)
    ⟨[WindowEvent.Resized ⟨5, 5⟩, WindowEvent.Resized ⟨7, 7⟩], ⟨1024, 768⟩, true⟩
    ⟨⟨5, 5⟩, by decide⟩

/-- C2: in every iteration the scene's `draw` runs exactly once when the
frame was acquired and never when acquisition failed; a failed acquisition
panics (aborting the process) right after `get_current_frame`, and a
successful one is followed by a fresh encoder, the draw call, and the
submit, in that order at the end of the iteration.  In the `main` variant
the per-frame scene draw (`scene.draw(&mut render_pass)`) likewise runs
exactly once per acquired frame. -/
theorem drawOncePerAcquiredFrame (s : LoopState) (inp : IterationInput) :
    (runIteration inp s).2.countP Action.isSceneDraw = (if inp.frameOk then 1 else 0) ∧
    (runIteration inp s).1.panicAborted = (s.panicAborted || !inp.frameOk) ∧
    (∃ pre,
      (runIteration inp s).2 =
        pre ++ (if inp.frameOk then
          [Action.getCurrentFrame, Action.createCommandEncoder,
            Action.sceneDraw, Action.queueSubmit]
        else [Action.getCurrentFrame, Action.panicked "Next frame"]) ∧
      pre.countP Action.isSceneDraw = 0 ∧ pre.countP Action.isGetFrame = 0) ∧
    (mainRunIteration inp s).2.countP Action.isSceneDrawPass =
      (if inp.frameOk then 1 else 0) := by
  refine ⟨?_, runIteration_panicAborted inp s, ?_, ?_⟩
  · rw [runIteration_spec]
    simp [List.countP_append, (eventsTrace_countP_zero inp.events).1,
      (rebuildActions_counts inp.drainSize _).1,
      (launchFrameActions_counts inp.frameOk).1]
  · refine ⟨inp.events.flatMap launchEventActions ++
      rebuildActions inp.drainSize (eventPhaseState inp.events s).resized, ?_, ?_, ?_⟩
    · rw [runIteration_spec]
      cases inp.frameOk <;> simp [launchFrameActions]
    · simp [List.countP_append, (eventsTrace_countP_zero inp.events).1,
        (rebuildActions_counts inp.drainSize _).1]
    · simp [List.countP_append, (eventsTrace_countP_zero inp.events).2.1,
        (rebuildActions_counts inp.drainSize _).2.1]
  · rw [mainRunIteration_spec]
    have h1 : (inp.events.flatMap driverEventActions).countP Action.isSceneDrawPass = 0 := by
      apply List.countP_eq_zero.mpr
      intro a ha
      rcases List.mem_flatMap.mp ha with ⟨e, _, he⟩
      cases e <;> simp [driverEventActions] at he <;>
        simp [he, Action.isSceneDrawPass]
    have h2 : (rebuildActions inp.drainSize
        (eventPhaseState inp.events s).resized).countP Action.isSceneDrawPass = 0 := by
      cases hr : (eventPhaseState inp.events s).resized <;>
        simp [rebuildActions, Action.isSceneDrawPass]
    have h3 : (mainFrameActions inp.frameOk).countP Action.isSceneDrawPass =
        (if inp.frameOk then 1 else 0) := by
      cases inp.frameOk <;> simp [mainFrameActions, Action.isSceneDrawPass]
    simp [List.countP_append, h1, h2, h3]

/-- C6: in `launch`, every window event is handed to `scene.event` first,
before the driver's own handling of that event (setting the dirty flag on a
resize, setting `ControlFlow::Exit` on a close request); within an
iteration, every delivered window event reaches the scene. -/
theorem sceneSeesEveryEventFirst (ws : Size) (fo : Bool) (s : LoopState)
    (e : WindowEvent) (inp : IterationInput) (he : e ∈ inp.events) :
    (launchStep ws fo s (Event.windowEvent e)).2 =
      Action.sceneEvent e :: driverEventActions e ∧
    Action.sceneEvent e ∈ (runIteration inp s).2 := by
  constructor
  · cases e <;> rfl
  · rw [runIteration_spec]
    refine List.mem_append.mpr (Or.inl ?_)
    exact List.mem_flatMap.mpr ⟨e, he, by simp [launchEventActions]⟩

theorem sceneSeesEveryEventFirst_witness :
    (launchStep ⟨640, 480⟩ true (initLoopState ⟨640, 480⟩)
        (Event.windowEvent WindowEvent.CloseRequested)).2 =
      Action.sceneEvent WindowEvent.CloseRequested ::
        driverEventActions WindowEvent.CloseRequested ∧
    Action.sceneEvent WindowEvent.CloseRequested ∈
      (runIteration ⟨[WindowEvent.CloseRequested], ⟨640, 480⟩, true⟩
        (initLoopState ⟨640, 480⟩)).2 :=
  sceneSeesEveryEventFirst ⟨640, 480⟩ true (initLoopState ⟨640, 480⟩)
    WindowEvent.CloseRequested ⟨[WindowEvent.CloseRequested], ⟨640, 480⟩, true⟩
    (by decide)

/-- C7: during event dispatch a resize only sets the dirty flag (every
other field of the loop state is unchanged), a close request only sets
`ControlFlow::Exit`, and no window event ever rebuilds or otherwise touches
the swapchain. -/
theorem resizeOnlySetsDirtyFlag (ws : Size) (fo : Bool) (s : LoopState) (sz : Size) :
    launchStep ws fo s (Event.windowEvent (WindowEvent.Resized sz)) =
      ({ s with resized := true },
        [Action.sceneEvent (WindowEvent.Resized sz), Action.setResized]) ∧
    launchStep ws fo s (Event.windowEvent WindowEvent.CloseRequested) =
      ({ s with control_flow := ControlFlow.Exit },
        [Action.sceneEvent WindowEvent.CloseRequested, Action.setExit]) ∧
    (∀ e : WindowEvent,
      (launchStep ws fo s (Event.windowEvent e)).2.countP Action.isRebuild = 0 ∧
      (launchStep ws fo s (Event.windowEvent e)).1.swap_chain = s.swap_chain) := by
  refine ⟨rfl, rfl, ?_⟩
  intro e
  cases e <;>
    simp [launchStep, List.countP_cons, List.countP_nil, Action.isRebuild]

/-- C3: every swapchain either program ever creates — the initial one at
startup and every rebuild, in `launch` as well as in the `main` variant —
uses the fixed 8-bit BGRA gamma-corrected format, the output-attachment
usage flag, and the mailbox present mode. -/
theorem swapchainConfigFixed (env : StartupEnv) (its : List IterationInput)
    (d : SwapChainDescriptor)
    (h : Action.createSwapChain d ∈ launch env its ∨
      Action.rebuildSwapChain d ∈ launch env its ∨
      Action.createSwapChain d ∈ mainRun env its ∨
      Action.rebuildSwapChain d ∈ mainRun env its) :
    d.usage = TextureUsage.OUTPUT_ATTACHMENT ∧
    d.format = TextureFormat.Bgra8UnormSrgb ∧
    d.present_mode = PresentMode.Mailbox := by
  rcases h with h | h | h | h
  · simpa [DescOk] using launch_descOk env its _ h
  · simpa [DescOk] using launch_descOk env its _ h
  · simpa [DescOk] using mainRun_descOk env its _ h
  · simpa [DescOk] using mainRun_descOk env its _ h

theorem swapchainConfigFixed_witness :
    (swapChainDescriptorAt ⟨800, 600⟩).usage = TextureUsage.OUTPUT_ATTACHMENT ∧
    (swapChainDescriptorAt ⟨800, 600⟩).format = TextureFormat.Bgra8UnormSrgb ∧
    (swapChainDescriptorAt ⟨800, 600⟩).present_mode = PresentMode.Mailbox :=
  swapchainConfigFixed ⟨true, true, true, ⟨800, 600⟩⟩ []
    (swapChainDescriptorAt ⟨800, 600⟩) (Or.inl (by decide))

/-- C4: after an iteration that observed a resize, the swapchain's width
and height equal the window's physical size sampled at the rebuild; a
second rebuild with the window size unchanged yields a swapchain
configuration equal in every field. -/
theorem rebuildMatchesWindowSize (s : LoopState) (inp inp2 : IterationInput)
    (h1 : ∃ sz, WindowEvent.Resized sz ∈ inp.events)
    (h2 : ∃ sz, WindowEvent.Resized sz ∈ inp2.events)
    (hsz : inp2.drainSize = inp.drainSize) :
    (runIteration inp s).1.swap_chain.width = inp.drainSize.width ∧
    (runIteration inp s).1.swap_chain.height = inp.drainSize.height ∧
    (runIteration inp2 (runIteration inp s).1).1.swap_chain =
      (runIteration inp s).1.swap_chain := by
  obtain ⟨sz1, hm1⟩ := h1
  obtain ⟨sz2, hm2⟩ := h2
  have ha1 : inp.events.any WindowEvent.isResized = true :=
    List.any_eq_true.mpr ⟨_, hm1, rfl⟩
  have ha2 : inp2.events.any WindowEvent.isResized = true :=
    List.any_eq_true.mpr ⟨_, hm2, rfl⟩
  have e1 : (runIteration inp s).1.swap_chain = swapChainDescriptorAt inp.drainSize := by
    rw [runIteration_swap_chain, ha1]
    simp
  have e2 : (runIteration inp2 (runIteration inp s).1).1.swap_chain =
      swapChainDescriptorAt inp2.drainSize := by
    rw [runIteration_swap_chain, ha2]
    simp
  refine ⟨?_, ?_, ?_⟩
  · rw [e1]
    rfl
  · rw [e1]
    rfl
  · rw [e2, e1, hsz]

theorem rebuildMatchesWindowSize_witness :
    (runIteration ⟨[WindowEvent.Resized ⟨3, 3⟩], ⟨1024, 768⟩, true⟩
        (initLoopState ⟨800, 600⟩)).1.swap_chain.width = 1024 ∧
    (runIteration ⟨[WindowEvent.Resized ⟨3, 3⟩], ⟨1024, 768⟩, true⟩
        (initLoopState ⟨800, 600⟩)).1.swap_chain.height = 768 ∧
    (runIteration ⟨[WindowEvent.Resized ⟨9, 9⟩], ⟨1024, 768⟩, true⟩
        (runIteration ⟨[WindowEvent.Resized ⟨3, 3⟩], ⟨1024, 768⟩, true⟩
          (initLoopState ⟨800, 600⟩)).1).1.swap_chain =
      (runIteration ⟨[WindowEvent.Resized ⟨3, 3⟩], ⟨1024, 768⟩, true⟩
        (initLoopState ⟨800, 600⟩)).1.swap_chain :=
  rebuildMatchesWindowSize (initLoopState ⟨800, 600⟩)
    ⟨[WindowEvent.Resized ⟨3, 3⟩], ⟨1024, 768⟩, true⟩
    ⟨[WindowEvent.Resized ⟨9, 9⟩], ⟨1024, 768⟩, true⟩
    ⟨⟨3, 3⟩, by decide⟩ ⟨⟨9, 9⟩, by decide⟩ rfl

/-- C5: on a successful startup, the scene constructor runs exactly once
per launch — after window, adapter, device and the initial swapchain are
set up, and strictly before the event loop, hence before every draw call
and every resize-triggered rebuild (which all occur in the loop trace, and
the explicit startup prefix contains neither). -/
theorem sceneConstructedOnce (env : StartupEnv) (its : List IterationInput)
    (hw : env.windowOk = true) (ha : env.adapterOk = true)
    (hd : env.deviceOk = true) :
    ∃ loopTrace,
      launch env its =
        [Action.createWindow, Action.requestAdapter, Action.requestDevice,
          Action.createSwapChain (swapChainDescriptorAt env.initialSize),
          Action.sceneNew] ++ loopTrace ∧
      loopTrace.countP Action.isSceneNew = 0 ∧
      (launch env its).countP Action.isSceneNew = 1 ∧
      loopTrace.countP Action.isCreateSwapChain = 0 := by
  refine ⟨(runLoop (initLoopState env.initialSize) its).2, ?_, ?_, ?_, ?_⟩
  · rw [launch_eq]
    simp [launchInit, hw, ha, hd]
  · exact List.countP_eq_zero.mpr fun a h => by
      simp [(runLoop_emits its _ a h).1]
  · rw [launch_eq]
    simp [launchInit, hw, ha, hd, List.countP_append, List.countP_cons,
      Action.isSceneNew]
    intro a h
    exact (runLoop_emits its _ a h).1
  · exact List.countP_eq_zero.mpr fun a h => by
      simp [(runLoop_emits its _ a h).2.1]

theorem sceneConstructedOnce_witness :
    ∃ loopTrace,
      launch ⟨true, true, true, ⟨800, 600⟩⟩ [⟨[], ⟨800, 600⟩, true⟩] =
        [Action.createWindow, Action.requestAdapter, Action.requestDevice,
          Action.createSwapChain (swapChainDescriptorAt ⟨800, 600⟩),
          Action.sceneNew] ++ loopTrace ∧
      loopTrace.countP Action.isSceneNew = 0 ∧
      (launch ⟨true, true, true, ⟨800, 600⟩⟩ [⟨[], ⟨800, 600⟩, true⟩]).countP
        Action.isSceneNew = 1 ∧
      loopTrace.countP Action.isCreateSwapChain = 0 :=
  sceneConstructedOnce ⟨true, true, true, ⟨800, 600⟩⟩ [⟨[], ⟨800, 600⟩, true⟩]
    rfl rfl rfl

lemma closingIteration (s : LoopState) (itC : IterationInput)
    (hc : WindowEvent.CloseRequested ∈ itC.events) (hok : itC.frameOk = true) :
    (runIteration itC s).1.control_flow = ControlFlow.Exit ∧
    ∃ t, (runIteration itC s).2 = t ++ [Action.queueSubmit] := by
  have hany : itC.events.any WindowEvent.isCloseRequested = true :=
    List.any_eq_true.mpr ⟨_, hc, rfl⟩
  constructor
  · rw [runIteration_control_flow, hany]
    rfl
  · refine ⟨itC.events.flatMap launchEventActions ++
      (rebuildActions itC.drainSize (eventPhaseState itC.events s).resized ++
        [Action.getCurrentFrame, Action.createCommandEncoder, Action.sceneDraw]), ?_⟩
    rw [runIteration_spec]
    simp [launchFrameActions, hok]

lemma runLoop_cons (inp : IterationInput) (rest : List IterationInput) (s : LoopState) :
    runLoop s (inp :: rest) =
      (if (runIteration inp s).1.panicAborted = true ∨
          (runIteration inp s).1.control_flow = ControlFlow.Exit then
        runIteration inp s
      else
        ((runLoop (runIteration inp s).1 rest).1,
          (runIteration inp s).2 ++ (runLoop (runIteration inp s).1 rest).2)) := rfl

/-- C8: once a close request is received in an iteration, the loop
terminates at the end of that iteration — the frame submission of that
iteration still completes (the trace ends with the queue submit), nothing
from later iterations is delivered to the scene or anyone else, and the
control flow is `Exit`. -/
theorem closeRequestTerminatesLoop (s0 : LoopState) (pre post : List IterationInput)
    (itC : IterationInput)
    (hcf : s0.control_flow = ControlFlow.Poll) (hpa : s0.panicAborted = false)
    (hpre : ∀ i ∈ pre, WindowEvent.CloseRequested ∉ i.events ∧ i.frameOk = true)
    (hc : WindowEvent.CloseRequested ∈ itC.events) (hok : itC.frameOk = true) :
    (runLoop s0 (pre ++ itC :: post)).2 = (runLoop s0 (pre ++ [itC])).2 ∧
    (runLoop s0 (pre ++ itC :: post)).1.control_flow = ControlFlow.Exit ∧
    ∃ t, (runLoop s0 (pre ++ itC :: post)).2 = t ++ [Action.queueSubmit] := by
  induction pre generalizing s0 with
  | nil =>
    obtain ⟨hexit, t, ht⟩ := closingIteration s0 itC hc hok
    have hcond : ((runIteration itC s0).1.panicAborted = true ∨
        (runIteration itC s0).1.control_flow = ControlFlow.Exit) := Or.inr hexit
    simp only [List.nil_append, runLoop_cons, if_pos hcond]
    exact ⟨trivial, hexit, t, ht⟩
  | cons i pre2 ih =>
    have hi := hpre i (List.mem_cons_self i pre2)
    have hnoc : i.events.any WindowEvent.isCloseRequested = false := by
      apply List.any_eq_false.mpr
      intro e he
      intro habs
      exact hi.1 ((isCloseRequested_eq_true e).mp habs ▸ he)
    have hcf1 : (runIteration i s0).1.control_flow = ControlFlow.Poll := by
      rw [runIteration_control_flow, hnoc]
      simpa using hcf
    have hpa1 : (runIteration i s0).1.panicAborted = false := by
      rw [runIteration_panicAborted, hpa, hi.2]
      rfl
    have hcond : ¬((runIteration i s0).1.panicAborted = true ∨
        (runIteration i s0).1.control_flow = ControlFlow.Exit) := by
      simp [hcf1, hpa1]
    have ihr := ih (runIteration i s0).1 hcf1 hpa1
      (fun j hj => hpre j (List.mem_cons_of_mem i hj))
    simp only [List.cons_append, runLoop_cons, if_neg hcond]
    refine ⟨by rw [ihr.1], ihr.2.1, ?_⟩
    obtain ⟨t, ht⟩ := ihr.2.2
    exact ⟨(runIteration i s0).2 ++ t, by rw [ht, List.append_assoc]⟩

theorem closeRequestTerminatesLoop_witness :
    (runLoop (initLoopState ⟨800, 600⟩)
        ([⟨[], ⟨800, 600⟩, true⟩] ++
          (⟨[WindowEvent.CloseRequested], ⟨800, 600⟩, true⟩ : IterationInput) ::
            [⟨[WindowEvent.Resized ⟨9, 9⟩], ⟨9, 9⟩, true⟩])).2 =
      (runLoop (initLoopState ⟨800, 600⟩)
        ([⟨[], ⟨800, 600⟩, true⟩] ++
          [⟨[WindowEvent.CloseRequested], ⟨800, 600⟩, true⟩])).2 ∧
    (runLoop (initLoopState ⟨800, 600⟩)
        ([⟨[], ⟨800, 600⟩, true⟩] ++
          (⟨[WindowEvent.CloseRequested], ⟨800, 600⟩, true⟩ : IterationInput) ::
            [⟨[WindowEvent.Resized ⟨9, 9⟩], ⟨9, 9⟩, true⟩])).1.control_flow =
      ControlFlow.Exit ∧
    ∃ t,
      (runLoop (initLoopState ⟨800, 600⟩)
          ([⟨[], ⟨800, 600⟩, true⟩] ++
            (⟨[WindowEvent.CloseRequested], ⟨800, 600⟩, true⟩ : IterationInput) ::
              [⟨[WindowEvent.Resized ⟨9, 9⟩], ⟨9, 9⟩, true⟩])).2 =
        t ++ [Action.queueSubmit] :=
  closeRequestTerminatesLoop (initLoopState ⟨800, 600⟩)
    [⟨[], ⟨800, 600⟩, true⟩] [⟨[WindowEvent.Resized ⟨9, 9⟩], ⟨9, 9⟩, true⟩]
    ⟨[WindowEvent.CloseRequested], ⟨800, 600⟩, true⟩
    rfl rfl (by decide) (by decide) rfl

/-- C9: startup failures are fatal and unrecoverable — if window creation
fails the process aborts immediately; if no adapter is obtained it aborts
with "Request adapter"; if no device is obtained it aborts with
"Request device"; and no startup call is ever retried (each appears at most
once in the trace). -/
theorem startupFailuresAreFatal (env : StartupEnv) :
    (env.windowOk = false →
      launchInit env = (InitOutcome.aborted "called unwrap on an Err value",
        [Action.createWindow, Action.panicked "called unwrap on an Err value"])) ∧
    (env.windowOk = true → env.adapterOk = false →
      launchInit env = (InitOutcome.aborted "Request adapter",
        [Action.createWindow, Action.requestAdapter,
          Action.panicked "Request adapter"])) ∧
    (env.windowOk = true → env.adapterOk = true → env.deviceOk = false →
      launchInit env = (InitOutcome.aborted "Request device",
        [Action.createWindow, Action.requestAdapter, Action.requestDevice,
          Action.panicked "Request device"])) ∧
    (launchInit env).2.countP Action.isCreateWindow ≤ 1 ∧
    (launchInit env).2.countP Action.isRequestAdapter ≤ 1 ∧
    (launchInit env).2.countP Action.isRequestDevice ≤ 1 := by
  obtain ⟨w, ad, dv, sz⟩ := env
  cases w <;> cases ad <;> cases dv <;>
    simp [launchInit, List.countP_cons, List.countP_nil,
      Action.isCreateWindow, Action.isRequestAdapter, Action.isRequestDevice]

theorem startupFailuresAreFatal_witness :
    launchInit ⟨true, false, true, ⟨800, 600⟩⟩ =
      (InitOutcome.aborted "Request adapter",
        [Action.createWindow, Action.requestAdapter,
          Action.panicked "Request adapter"]) :=
  (startupFailuresAreFatal ⟨true, false, true, ⟨800, 600⟩⟩).2.1 rfl rfl

/-- C10: in the fixed non-generic variant (`main`), the window-event branch
makes no call into the Scene at all, and over any whole run of the `main`
loop the scene never receives a window event — in contrast with the generic
`launch`, whose window-event branch hands every event to `scene.event`
exactly once. -/
theorem mainVariantHidesEventsFromScene (ws : Size) (fo : Bool) (s : LoopState) :
    (∀ e : WindowEvent,
      (mainStep ws fo s (Event.windowEvent e)).2.countP Action.isSceneCall = 0) ∧
    (∀ (s0 : LoopState) (its : List IterationInput),
      (mainRunLoop s0 its).2.countP Action.isSceneEvent = 0) ∧
    (∀ e : WindowEvent,
      (launchStep ws fo s (Event.windowEvent e)).2.countP Action.isSceneEvent = 1) := by
  refine ⟨?_, ?_, ?_⟩
  · intro e
    cases e <;>
      simp [mainStep, List.countP_cons, List.countP_nil, Action.isSceneCall]
  · intro s0 its
    apply List.countP_eq_zero.mpr
    intro a ha
    simp [(mainRunLoop_emits its s0 a ha).2.2.1]
  · intro e
    cases e <;>
      simp [launchStep, List.countP_cons, List.countP_nil, Action.isSceneEvent]

end WgpuLaunchpad
